import Mathlib

/-!
Shallow embedding of `src/Assignment6/headers/script.h` (class `Script`).

The C++ class stores `list<Frame> frames`, an iterator `iter` into it, and an
`int currFrameNum`.  We model the pair (frames, iter) as a zipper: `before`
holds the elements strictly before the iterator in reverse order, `after`
holds the element the iterator points to (if any) followed by the rest;
`iter == end()` corresponds to `after = []` and `iter == begin()` to
`before = []`.  The full frame list is `before.reverse ++ after`.  `Frame` is
opaque to the class (only copied, displayed, serialized), so the model is
parametric in a type `α` of frames.

Calls to `iter->showFrameInScene()` are recorded as a list of display events,
each holding the element the iterator dereferences — `none` when the iterator
is past-the-end, which is undefined behaviour in C++.

`frames.size()` has the unsigned type `size_t`; in guards such as
`currFrameNum < frames.size() - 2` the subtraction wraps modulo 2^64 and the
`int` operand is converted to `size_t`.  The model makes both explicit via
`WORD` and `toUnsigned`.
-/

namespace Asst6

/-- Number of values of `size_t` (2 ^ 64): the modulus of the unsigned
arithmetic in the source's guards. -/
def WORD : Nat := 18446744073709551616

/-- Conversion of the `int currFrameNum` to `size_t`, as performed by the
usual arithmetic conversions in `currFrameNum < frames.size() - k`. -/
def toUnsigned (i : Int) : Nat := (i % (WORD : Int)).toNat

/-- State of a `Script` object: the frame list split at the iterator,
plus the `int currFrameNum` counter. -/
structure Script (α : Type) where
  before : List α
  after : List α
  currFrameNum : Int
deriving DecidableEq

variable {α : Type}

/-- Display event of `iter->showFrameInScene()`: the element the iterator
dereferences, `none` when `iter` is past-the-end (undefined behaviour). -/
def deref (s : Script α) : Option α := s.after.head?

/-- Raw `iter++` (no `currFrameNum` change); `none` models the undefined
behaviour of incrementing the past-the-end iterator. -/
def iterNext (s : Script α) : Option (Script α) :=
  match s.after with
  | [] => none
  | a :: rest => some ⟨a :: s.before, rest, s.currFrameNum⟩

/-- Raw `iter--` (no `currFrameNum` change); `none` models the undefined
behaviour of decrementing `begin()`. -/
def iterPrev (s : Script α) : Option (Script α) :=
  match s.before with
  | [] => none
  | b :: bs => some ⟨bs, b :: s.after, s.currFrameNum⟩

/-- Script::Script(): empty list, `iter = frames.begin()`,
`currFrameNum = 0` (lines 48-52). -/
def emptyScript : Script α := ⟨[], [], 0⟩

/-- Script::Script(list<Frame>) (private, lines 28-32): copy the list,
`iter = frames.begin()`, `currFrameNum = 0`. -/
def mkScript (l : List α) : Script α := ⟨[], l, 0⟩

/-- Script::getNumberOfKeyframes (lines 57-59): `frames.size()`. -/
def getNumberOfKeyframes (s : Script α) : Nat :=
  s.before.length + s.after.length

/-- Script::defined (private, lines 38-45): when the list is empty, reset
`iter` to `begin()` and `currFrameNum` to 0 and return false; otherwise
return `iter != end()`.  The result is paired with the (possibly reset)
state, since the reset is a side effect on the object. -/
def defined (s : Script α) : Bool × Script α :=
  if getNumberOfKeyframes s = 0 then (false, ⟨[], [], 0⟩)
  else (!s.after.isEmpty, s)

/-- Script::advanceIter (lines 61-65): `iter++; currFrameNum++` plus a log
line. -/
def advanceIter (s : Script α) : Option (Script α) :=
  (iterNext s).map fun t => ⟨t.before, t.after, t.currFrameNum + 1⟩

/-- Script::regressIter (lines 67-71): `iter--; currFrameNum--` plus a log
line. -/
def regressIter (s : Script α) : Option (Script α) :=
  (iterPrev s).map fun t => ⟨t.before, t.after, t.currFrameNum - 1⟩

/-- Script::canAnimate (lines 76-78):
`defined() && currFrameNum < frames.size() - 2`, where `frames.size() - 2`
wraps modulo 2^64 and `currFrameNum` is converted to `size_t`. -/
def canAnimate (s : Script α) : Bool × Script α :=
  if (defined s).1 then
    (decide (toUnsigned (defined s).2.currFrameNum <
      (getNumberOfKeyframes (defined s).2 + WORD - 2) % WORD), (defined s).2)
  else (false, (defined s).2)

/-- Script::showCurrentFrameInScene (lines 83-87). -/
def showCurrentFrameInScene (s : Script α) : Script α × List (Option α) :=
  if (defined s).1 then ((defined s).2, [deref (defined s).2])
  else ((defined s).2, [])

/-- Script::advanceCurrentFrame (lines 105-110): guarded `advanceIter`
followed by a display.  The guard compares `currFrameNum` with
`frames.size() - 1` in `size_t` arithmetic. -/
def advanceCurrentFrame (s : Script α) : Script α × List (Option α) :=
  if (defined s).1 && decide (toUnsigned (defined s).2.currFrameNum <
      (getNumberOfKeyframes (defined s).2 + WORD - 1) % WORD) then
    match advanceIter (defined s).2 with
    | some t => (t, [deref t])
    | none => ((defined s).2, [])  -- dead: `defined` true means `after` nonempty
  else ((defined s).2, [])

/-- Script::regressCurrentFrame (lines 115-122): if defined and
`iter != frames.begin()`, `regressIter` then display. -/
def regressCurrentFrame (s : Script α) : Script α × List (Option α) :=
  if (defined s).1 then
    if !(defined s).2.before.isEmpty then
      match regressIter (defined s).2 with
      | some t => (t, [deref t])
      | none => ((defined s).2, [])  -- dead: the guard says `before` nonempty
    else ((defined s).2, [])
  else ((defined s).2, [])

/-- Script::goToBeginning (lines 127-133): `iter = frames.begin();
currFrameNum = 0`, then a display guarded by `defined()`. -/
def goToBeginning (s : Script α) : Script α × List (Option α) :=
  if (defined (⟨[], s.before.reverse ++ s.after, 0⟩ : Script α)).1 then
    ((defined (⟨[], s.before.reverse ++ s.after, 0⟩ : Script α)).2,
     [deref (defined (⟨[], s.before.reverse ++ s.after, 0⟩ : Script α)).2])
  else ((defined (⟨[], s.before.reverse ++ s.after, 0⟩ : Script α)).2, [])

/-- Script::deleteCurrentFrame (lines 148-163).  `temp` is the neighbour
iterator: the next element when `iter == begin()`, the previous one
otherwise.  After `frames.erase(iter); iter = temp` the zipper drops the
head of `after` and, in the non-first case, moves one step left.  The
source does not touch `currFrameNum` here, and it dereferences `iter`
unconditionally at the end (past-the-end when the list became empty). -/
def deleteCurrentFrame (s : Script α) : Script α × List (Option α) :=
  if (defined s).1 then
    match (defined s).2.before, (defined s).2.after with
    | [], _ :: rest =>
      (⟨[], rest, (defined s).2.currFrameNum⟩,
       [deref ⟨[], rest, (defined s).2.currFrameNum⟩])
    | b :: bs, _ :: rest =>
      (⟨bs, b :: rest, (defined s).2.currFrameNum⟩,
       [deref ⟨bs, b :: rest, (defined s).2.currFrameNum⟩])
    | _, [] => ((defined s).2, [])  -- dead: `defined` true means `after` nonempty
  else ((defined s).2, [])

/-- Script::createNewFrameFromSceneAfterCurrentFrame (lines 173-192), with
the captured `Frame(rootNode)` passed in as the value `frame`.  Defined
branch: `iter++; frames.insert(iter, frame); iter--; currFrameNum++` —
`insert` places `frame` before the element after the cursor and the final
`iter--` leaves the iterator on the inserted frame.  Undefined branch:
`push_back(frame); iter = frames.begin(); currFrameNum = 0`.  Both
branches display `*iter`. -/
def createNewFrameFromSceneAfterCurrentFrame (frame : α) (s : Script α) :
    Script α × List (Option α) :=
  if (defined s).1 then
    match (defined s).2.after with
    | a :: rest =>
      (⟨a :: (defined s).2.before, frame :: rest, (defined s).2.currFrameNum + 1⟩,
       [deref ⟨a :: (defined s).2.before, frame :: rest,
         (defined s).2.currFrameNum + 1⟩])
    | [] => ((defined s).2, [])  -- dead: `defined` true means `after` nonempty
  else
    (⟨[], (defined s).2.before.reverse ++ (defined s).2.after ++ [frame], 0⟩,
     [deref ⟨[], (defined s).2.before.reverse ++ (defined s).2.after ++ [frame],
       0⟩])

/-- Script::replaceCurrentFrameFromScene (lines 92-100): if defined,
overwrite `*iter` with the captured frame and display it; otherwise
delegate to `createNewFrameFromSceneAfterCurrentFrame`. -/
def replaceCurrentFrameFromScene (frame : α) (s : Script α) :
    Script α × List (Option α) :=
  if (defined s).1 then
    match (defined s).2.after with
    | _ :: rest =>
      (⟨(defined s).2.before, frame :: rest, (defined s).2.currFrameNum⟩,
       [deref ⟨(defined s).2.before, frame :: rest, (defined s).2.currFrameNum⟩])
    | [] => ((defined s).2, [])  -- dead: `defined` true means `after` nonempty
  else
    createNewFrameFromSceneAfterCurrentFrame frame (defined s).2

/-- Script::interpolate (lines 201-216), one bind per source line:
`iter--` / read `prevFrame` / `iter++` / read `firstFrame` / `iter++` /
read `secondFrame` / `iter++` / read `afterFrame` / `iter--` / `iter--`.
The result is the final state together with the four gathered context
frames; `none` whenever a move or a dereference falls off the list
(undefined behaviour in the source).  The blend itself and the display of
the synthesized frame are the external `Frame::interpolate` collaborator
and touch no element of the list. -/
def interpolate (s : Script α) : Option (Script α × α × α × α × α) :=
  (iterPrev s).bind fun s1 =>
  (deref s1).bind fun prevFrame =>
  (iterNext s1).bind fun s2 =>
  (deref s2).bind fun firstFrame =>
  (iterNext s2).bind fun s3 =>
  (deref s3).bind fun secondFrame =>
  (iterNext s3).bind fun s4 =>
  (deref s4).bind fun afterFrame =>
  (iterPrev s4).bind fun s5 =>
  (iterPrev s5).bind fun s6 =>
  some (s6, prevFrame, firstFrame, secondFrame, afterFrame)

/-- Script::loadScriptFromFile (lines 221-244).  The file system is
abstracted: `none` is a file that failed to open, `some lines` the list of
lines `getline` yields, in file order; `deserialize` abstracts
`Frame::deserialize(rootNode, line)`.  A missing file yields `Script()`;
otherwise every line is deserialized in order and the private list
constructor puts the cursor at the first element with `currFrameNum = 0`. -/
def loadScriptFromFile (deserialize : String → α) (file : Option (List String)) :
    Script α :=
  match file with
  | none => emptyScript
  | some lines => mkScript (lines.map deserialize)

/-- States reachable through the class interface, starting from either
constructor (`Script()` or the private list constructor used by
`loadScriptFromFile`).  The raw iterator moves `advanceIter` and
`regressIter` are public but carry the documented preconditions (defined
and not at the last element; not at the first element): moving `iter` past
`end()` or before `begin()` is undefined behaviour in the source, as is
overflowing the `int` counter, so such calls are excluded, matching the
spec's caller contract. -/
inductive Reachable {α : Type} : Script α → Prop where
  | init : Reachable emptyScript
  | load (l : List α) : Reachable (mkScript l)
  | normalize {s : Script α} : Reachable s → Reachable (defined s).2
  | canAnim {s : Script α} : Reachable s → Reachable (canAnimate s).2
  | showCur {s : Script α} : Reachable s → Reachable (showCurrentFrameInScene s).1
  | advIter {s t : Script α} : Reachable s → 2 ≤ s.after.length →
      s.currFrameNum < 2147483647 → advanceIter s = some t → Reachable t
  | regIter {s t : Script α} : Reachable s → s.before ≠ [] →
      regressIter s = some t → Reachable t
  | advCur {s : Script α} : Reachable s → s.currFrameNum < 2147483647 →
      Reachable (advanceCurrentFrame s).1
  | regCur {s : Script α} : Reachable s → Reachable (regressCurrentFrame s).1
  | toBeginning {s : Script α} : Reachable s → Reachable (goToBeginning s).1
  | del {s : Script α} : Reachable s → Reachable (deleteCurrentFrame s).1
  | create {s : Script α} (f : α) : Reachable s →
      s.currFrameNum < 2147483647 →
      Reachable (createNewFrameFromSceneAfterCurrentFrame f s).1
  | replaceCur {s : Script α} (f : α) : Reachable s →
      s.currFrameNum < 2147483647 →
      Reachable (replaceCurrentFrameFromScene f s).1

/-- Invariant of reachable states: the iterator is past-the-end only when
the list is empty, and the counter is at least the iterator's 0-based
position (`deleteCurrentFrame` only ever increases the slack) and fits in
a C `int`. -/
def GoodState (s : Script α) : Prop :=
  (s.after = [] → s.before = []) ∧
  ((s.before.length : Int) ≤ s.currFrameNum) ∧ s.currFrameNum ≤ 2147483647

/-! Helper lemmas: evaluation of `defined`, `canAnimate` and the
navigation operations on states given by explicit constructors. -/

/-- Helper: `defined` on a state whose iterator is on a live element. -/
theorem defined_cons (bef : List α) (a : α) (rest : List α) (n : Int) :
    defined ⟨bef, a :: rest, n⟩ = (true, ⟨bef, a :: rest, n⟩) := by
  have h : getNumberOfKeyframes (⟨bef, a :: rest, n⟩ : Script α) ≠ 0 := by
    simp [getNumberOfKeyframes]
  unfold defined
  rw [if_neg h]
  simp

/-- Helper: `defined` on a nonempty state whose iterator is past-the-end. -/
theorem defined_atEnd (b : α) (bs : List α) (n : Int) :
    defined ⟨b :: bs, [], n⟩ = (false, ⟨b :: bs, [], n⟩) := by
  have h : getNumberOfKeyframes (⟨b :: bs, [], n⟩ : Script α) ≠ 0 := by
    simp [getNumberOfKeyframes]
  unfold defined
  rw [if_neg h]
  simp

/-- Helper: `canAnimate` on a state whose iterator is on a live element. -/
theorem canAnimate_cons (bef : List α) (a : α) (rest : List α) (n : Int) :
    canAnimate ⟨bef, a :: rest, n⟩ =
      (decide (toUnsigned n <
        (getNumberOfKeyframes (⟨bef, a :: rest, n⟩ : Script α) + WORD - 2) %
          WORD),
       ⟨bef, a :: rest, n⟩) := by
  unfold canAnimate
  rw [defined_cons]
  rfl

/-- Helper: first component of `canAnimate` on a defined state. -/
theorem canAnimate_cons_fst (bef : List α) (a : α) (rest : List α) (n : Int) :
    (canAnimate ⟨bef, a :: rest, n⟩).1 =
      decide (toUnsigned n <
        (getNumberOfKeyframes (⟨bef, a :: rest, n⟩ : Script α) + WORD - 2) %
          WORD) := by
  rw [canAnimate_cons]

/-- Helper: `canAnimate` on a nonempty state with the iterator past-the-end. -/
theorem canAnimate_atEnd (b : α) (bs : List α) (n : Int) :
    canAnimate ⟨b :: bs, [], n⟩ = (false, ⟨b :: bs, [], n⟩) := by
  unfold canAnimate
  rw [defined_atEnd]
  rfl

/-- Helper: `advanceCurrentFrame` when the counter guard holds. -/
theorem advanceCurrentFrame_of_guard (bef : List α) (a : α) (rest : List α)
    (n : Int)
    (h : toUnsigned n <
      (getNumberOfKeyframes (⟨bef, a :: rest, n⟩ : Script α) + WORD - 1) %
        WORD) :
    advanceCurrentFrame ⟨bef, a :: rest, n⟩ =
      (⟨a :: bef, rest, n + 1⟩, [rest.head?]) := by
  unfold advanceCurrentFrame
  rw [defined_cons]
  simp [h, advanceIter, iterNext, deref]

/-- Helper: `regressCurrentFrame` on a defined state not at the first
element. -/
theorem regressCurrentFrame_cons (b : α) (bs : List α) (a : α)
    (rest : List α) (n : Int) :
    regressCurrentFrame ⟨b :: bs, a :: rest, n⟩ =
      (⟨bs, b :: a :: rest, n - 1⟩, [some b]) := by
  unfold regressCurrentFrame
  rw [defined_cons]
  simp [regressIter, iterPrev, deref]

/-- Helper: the `int`-to-`size_t` conversion is the identity on small
non-negative values. -/
theorem toUnsigned_small {i : Int} (h0 : 0 ≤ i) (h1 : i < 2147483648) :
    toUnsigned i = i.toNat := by
  unfold toUnsigned WORD
  omega

/-- Helper: `defined` on the canonical empty state. -/
theorem defined_empty (n : Int) :
    defined (⟨[], [], n⟩ : Script α) = (false, ⟨[], [], 0⟩) := rfl

/-- Helper: first component of `defined` on a defined state. -/
theorem defined_cons_fst (bef : List α) (a : α) (rest : List α) (n : Int) :
    (defined ⟨bef, a :: rest, n⟩).1 = true := by
  rw [defined_cons]

/-- Helper: `defined` returns false whenever the iterator is past-the-end. -/
theorem defined_fst_atEnd_false (bef : List α) (n : Int) :
    (defined (⟨bef, [], n⟩ : Script α)).1 = false := by
  rcases bef with _ | ⟨b, bs⟩
  · rw [defined_empty]
  · rw [defined_atEnd]

/-- Helper: `advanceCurrentFrame` when the counter guard fails. -/
theorem advanceCurrentFrame_of_not_guard (bef : List α) (a : α)
    (rest : List α) (n : Int)
    (h : ¬ toUnsigned n <
      (getNumberOfKeyframes (⟨bef, a :: rest, n⟩ : Script α) + WORD - 1) %
        WORD) :
    advanceCurrentFrame ⟨bef, a :: rest, n⟩ = (⟨bef, a :: rest, n⟩, []) := by
  unfold advanceCurrentFrame
  rw [defined_cons]
  simp [h]

/-- Helper: `advanceCurrentFrame` on a state that is not defined. -/
theorem advanceCurrentFrame_not_defined (s : Script α)
    (h : (defined s).1 = false) :
    advanceCurrentFrame s = ((defined s).2, []) := by
  unfold advanceCurrentFrame
  rw [h]
  rfl

/-- Helper: `regressCurrentFrame` on a state that is not defined. -/
theorem regressCurrentFrame_not_defined (s : Script α)
    (h : (defined s).1 = false) :
    regressCurrentFrame s = ((defined s).2, []) := by
  unfold regressCurrentFrame
  rw [h]
  rfl

/-- Helper: `regressCurrentFrame` on a defined state at the first element
is a no-op. -/
theorem regressCurrentFrame_at_begin (a : α) (rest : List α) (n : Int) :
    regressCurrentFrame ⟨[], a :: rest, n⟩ = (⟨[], a :: rest, n⟩, []) := by
  unfold regressCurrentFrame
  rw [defined_cons]
  rfl

/-- Helper: the state left by `goToBeginning` is the normalized
cursor-at-begin state. -/
theorem goToBeginning_fst (s : Script α) :
    (goToBeginning s).1 =
      (defined (⟨[], s.before.reverse ++ s.after, 0⟩ : Script α)).2 := by
  unfold goToBeginning
  split <;> rfl

/-- Helper: the state left by `showCurrentFrameInScene` is the one left by
its `defined` call. -/
theorem showCurrentFrameInScene_fst (s : Script α) :
    (showCurrentFrameInScene s).1 = (defined s).2 := by
  unfold showCurrentFrameInScene
  split <;> rfl

/-- Helper: the state left by `canAnimate` is the one left by its
`defined` call. -/
theorem canAnimate_snd (s : Script α) : (canAnimate s).2 = (defined s).2 := by
  unfold canAnimate
  split <;> rfl

/-- Helper: `deleteCurrentFrame` on a state that is not defined. -/
theorem deleteCurrentFrame_not_defined (s : Script α)
    (h : (defined s).1 = false) :
    deleteCurrentFrame s = ((defined s).2, []) := by
  unfold deleteCurrentFrame
  rw [h]
  rfl

/-- Helper: `deleteCurrentFrame` of the first element. -/
theorem deleteCurrentFrame_first (a : α) (rest : List α) (n : Int) :
    deleteCurrentFrame ⟨[], a :: rest, n⟩ = (⟨[], rest, n⟩, [rest.head?]) := by
  unfold deleteCurrentFrame
  rw [defined_cons]
  rfl

/-- Helper: `deleteCurrentFrame` of a non-first element. -/
theorem deleteCurrentFrame_nonfirst (b : α) (bs : List α) (a : α)
    (rest : List α) (n : Int) :
    deleteCurrentFrame ⟨b :: bs, a :: rest, n⟩ =
      (⟨bs, b :: rest, n⟩, [some b]) := by
  unfold deleteCurrentFrame
  rw [defined_cons]
  rfl

/-- Helper: `createNewFrameFromSceneAfterCurrentFrame` on a defined state. -/
theorem createNew_cons (f : α) (bef : List α) (a : α) (rest : List α)
    (n : Int) :
    createNewFrameFromSceneAfterCurrentFrame f ⟨bef, a :: rest, n⟩ =
      (⟨a :: bef, f :: rest, n + 1⟩, [some f]) := by
  unfold createNewFrameFromSceneAfterCurrentFrame
  rw [defined_cons]
  rfl

/-- Helper: `createNewFrameFromSceneAfterCurrentFrame` on a state that is
not defined. -/
theorem createNew_not_defined (f : α) (s : Script α)
    (h : (defined s).1 = false) :
    createNewFrameFromSceneAfterCurrentFrame f s =
      (⟨[], (defined s).2.before.reverse ++ (defined s).2.after ++ [f], 0⟩,
       [((defined s).2.before.reverse ++ (defined s).2.after ++ [f]).head?]) := by
  unfold createNewFrameFromSceneAfterCurrentFrame
  rw [h]
  rfl

/-- Helper: `replaceCurrentFrameFromScene` on a defined state. -/
theorem replace_cons (f : α) (bef : List α) (a : α) (rest : List α)
    (n : Int) :
    replaceCurrentFrameFromScene f ⟨bef, a :: rest, n⟩ =
      (⟨bef, f :: rest, n⟩, [some f]) := by
  unfold replaceCurrentFrameFromScene
  rw [defined_cons]
  rfl

/-- Helper: `replaceCurrentFrameFromScene` on a state that is not defined
delegates to the insert operation. -/
theorem replace_not_defined (f : α) (s : Script α)
    (h : (defined s).1 = false) :
    replaceCurrentFrameFromScene f s =
      createNewFrameFromSceneAfterCurrentFrame f (defined s).2 := by
  unfold replaceCurrentFrameFromScene
  rw [h]
  rfl

/-- Helper: `defined` preserves the state invariant. -/
theorem good_defined {s : Script α} (h : GoodState s) :
    GoodState (defined s).2 := by
  unfold defined
  split
  · refine ⟨fun _ => rfl, ?_, ?_⟩
    · show ((([] : List α).length : Nat) : Int) ≤ 0
      simp
    · show (0 : Int) ≤ 2147483647
      decide
  · exact h

/-- Helper: the normalization of `defined` keeps the counter in range. -/
theorem defined_snd_counter_lt {s : Script α}
    (h : s.currFrameNum < 2147483647) :
    (defined s).2.currFrameNum < 2147483647 := by
  unfold defined
  split
  · show (0 : Int) < 2147483647
    decide
  · exact h

/-- Helper: a guarded `advanceIter` preserves the state invariant. -/
theorem good_advanceIter {s t : Script α} (h : GoodState s)
    (h2 : 2 ≤ s.after.length) (hn : s.currFrameNum < 2147483647)
    (ht : advanceIter s = some t) : GoodState t := by
  obtain ⟨bef, aft, n⟩ := s
  have hn2 : n < 2147483647 := hn
  have h2b : 2 ≤ aft.length := h2
  obtain ⟨g1, g2, g3⟩ := h
  have g2b : (bef.length : Int) ≤ n := g2
  rcases aft with _ | ⟨a, rest⟩
  · exact absurd h2b (by simp)
  · rw [show advanceIter (⟨bef, a :: rest, n⟩ : Script α) =
        some ⟨a :: bef, rest, n + 1⟩ from rfl] at ht
    obtain rfl := Option.some.inj ht
    have hrest : rest ≠ [] := by
      intro hr
      rw [hr] at h2b
      simp at h2b
    refine ⟨fun hr => absurd (hr : rest = []) hrest, ?_, ?_⟩
    · show (((a :: bef).length : Nat) : Int) ≤ n + 1
      simp only [List.length_cons]
      omega
    · show n + 1 ≤ 2147483647
      omega

/-- Helper: a guarded `regressIter` preserves the state invariant. -/
theorem good_regressIter {s t : Script α} (h : GoodState s)
    (hb : s.before ≠ []) (ht : regressIter s = some t) : GoodState t := by
  obtain ⟨bef, aft, n⟩ := s
  have hb2 : bef ≠ [] := hb
  obtain ⟨g1, g2, g3⟩ := h
  have g2b : (bef.length : Int) ≤ n := g2
  have g3b : n ≤ 2147483647 := g3
  rcases bef with _ | ⟨b, bs⟩
  · exact absurd rfl hb2
  · rw [show regressIter (⟨b :: bs, aft, n⟩ : Script α) =
        some ⟨bs, b :: aft, n - 1⟩ from rfl] at ht
    obtain rfl := Option.some.inj ht
    have g2c : ((bs.length : Nat) : Int) + 1 ≤ n := by
      simp only [List.length_cons] at g2b
      omega
    refine ⟨fun hr => absurd (hr : b :: aft = []) (by simp), ?_, ?_⟩
    · show ((bs.length : Nat) : Int) ≤ n - 1
      omega
    · show n - 1 ≤ 2147483647
      omega

/-- Helper: `advanceCurrentFrame` preserves the state invariant. -/
theorem good_advanceCurrentFrame {s : Script α} (h : GoodState s)
    (hn : s.currFrameNum < 2147483647) :
    GoodState (advanceCurrentFrame s).1 := by
  obtain ⟨bef, aft, n⟩ := s
  have hn2 : n < 2147483647 := hn
  obtain ⟨g1, g2, g3⟩ := h
  have g2b : (bef.length : Int) ≤ n := g2
  have g3b : n ≤ 2147483647 := g3
  rcases aft with _ | ⟨a, rest⟩
  · rw [advanceCurrentFrame_not_defined _ (defined_fst_atEnd_false bef n)]
    exact good_defined ⟨g1, g2b, g3b⟩
  · by_cases hg : toUnsigned n <
        (getNumberOfKeyframes (⟨bef, a :: rest, n⟩ : Script α) + WORD - 1) %
          WORD
    · rw [advanceCurrentFrame_of_guard bef a rest n hg]
      have hrest : rest ≠ [] := by
        intro hr
        subst hr
        unfold toUnsigned WORD getNumberOfKeyframes at hg
        simp only [List.length_cons, List.length_nil] at hg
        omega
      refine ⟨fun hr => absurd (hr : rest = []) hrest, ?_, ?_⟩
      · show (((a :: bef).length : Nat) : Int) ≤ n + 1
        simp only [List.length_cons]
        omega
      · show n + 1 ≤ 2147483647
        omega
    · rw [advanceCurrentFrame_of_not_guard bef a rest n hg]
      exact ⟨g1, g2b, g3b⟩

/-- Helper: `regressCurrentFrame` preserves the state invariant. -/
theorem good_regressCurrentFrame {s : Script α} (h : GoodState s) :
    GoodState (regressCurrentFrame s).1 := by
  obtain ⟨bef, aft, n⟩ := s
  obtain ⟨g1, g2, g3⟩ := h
  have g2b : (bef.length : Int) ≤ n := g2
  have g3b : n ≤ 2147483647 := g3
  rcases aft with _ | ⟨a, rest⟩
  · rw [regressCurrentFrame_not_defined _ (defined_fst_atEnd_false bef n)]
    exact good_defined ⟨g1, g2b, g3b⟩
  · rcases bef with _ | ⟨b, bs⟩
    · rw [regressCurrentFrame_at_begin]
      exact ⟨g1, g2b, g3b⟩
    · rw [regressCurrentFrame_cons]
      have g2c : ((bs.length : Nat) : Int) + 1 ≤ n := by
        simp only [List.length_cons] at g2b
        omega
      refine ⟨fun hr => absurd (hr : b :: a :: rest = []) (by simp), ?_, ?_⟩
      · show ((bs.length : Nat) : Int) ≤ n - 1
        omega
      · show n - 1 ≤ 2147483647
        omega

/-- Helper: `goToBeginning` always leaves an invariant-respecting state. -/
theorem good_goToBeginning (s : Script α) : GoodState (goToBeginning s).1 := by
  rw [goToBeginning_fst]
  refine good_defined ⟨fun _ => rfl, ?_, ?_⟩
  · show ((([] : List α).length : Nat) : Int) ≤ 0
    simp
  · show (0 : Int) ≤ 2147483647
    decide

/-- Helper: `deleteCurrentFrame` preserves the state invariant. -/
theorem good_deleteCurrentFrame {s : Script α} (h : GoodState s) :
    GoodState (deleteCurrentFrame s).1 := by
  obtain ⟨bef, aft, n⟩ := s
  obtain ⟨g1, g2, g3⟩ := h
  have g2b : (bef.length : Int) ≤ n := g2
  have g3b : n ≤ 2147483647 := g3
  rcases aft with _ | ⟨a, rest⟩
  · rw [deleteCurrentFrame_not_defined _ (defined_fst_atEnd_false bef n)]
    exact good_defined ⟨g1, g2b, g3b⟩
  · rcases bef with _ | ⟨b, bs⟩
    · rw [deleteCurrentFrame_first]
      exact ⟨fun _ => rfl, g2b, g3b⟩
    · rw [deleteCurrentFrame_nonfirst]
      have g2c : ((bs.length : Nat) : Int) + 1 ≤ n := by
        simp only [List.length_cons] at g2b
        omega
      refine ⟨fun hr => absurd (hr : b :: rest = []) (by simp), ?_, ?_⟩
      · show ((bs.length : Nat) : Int) ≤ n
        omega
      · show n ≤ 2147483647
        omega

/-- Helper: `createNewFrameFromSceneAfterCurrentFrame` preserves the state
invariant. -/
theorem good_createNew {s : Script α} (f : α) (h : GoodState s)
    (hn : s.currFrameNum < 2147483647) :
    GoodState (createNewFrameFromSceneAfterCurrentFrame f s).1 := by
  cases hd : (defined s).1 with
  | false =>
    rw [createNew_not_defined f s hd]
    refine ⟨fun _ => rfl, ?_, ?_⟩
    · show ((([] : List α).length : Nat) : Int) ≤ 0
      simp
    · show (0 : Int) ≤ 2147483647
      decide
  | true =>
    obtain ⟨bef, aft, n⟩ := s
    have hn2 : n < 2147483647 := hn
    obtain ⟨g1, g2, g3⟩ := h
    have g2b : (bef.length : Int) ≤ n := g2
    rcases aft with _ | ⟨a, rest⟩
    · rw [defined_fst_atEnd_false] at hd
      exact Bool.noConfusion hd
    · rw [createNew_cons]
      refine ⟨fun hr => absurd (hr : f :: rest = []) (by simp), ?_, ?_⟩
      · show (((a :: bef).length : Nat) : Int) ≤ n + 1
        simp only [List.length_cons]
        omega
      · show n + 1 ≤ 2147483647
        omega

/-- Helper: `replaceCurrentFrameFromScene` preserves the state invariant. -/
theorem good_replaceCur {s : Script α} (f : α) (h : GoodState s)
    (hn : s.currFrameNum < 2147483647) :
    GoodState (replaceCurrentFrameFromScene f s).1 := by
  cases hd : (defined s).1 with
  | false =>
    rw [replace_not_defined f s hd]
    exact good_createNew f (good_defined h) (defined_snd_counter_lt hn)
  | true =>
    obtain ⟨bef, aft, n⟩ := s
    obtain ⟨g1, g2, g3⟩ := h
    have g2b : (bef.length : Int) ≤ n := g2
    have g3b : n ≤ 2147483647 := g3
    rcases aft with _ | ⟨a, rest⟩
    · rw [defined_fst_atEnd_false] at hd
      exact Bool.noConfusion hd
    · rw [replace_cons]
      exact ⟨fun hr => absurd (hr : f :: rest = []) (by simp), g2b, g3b⟩

/-- Helper: every reachable state satisfies the invariant. -/
theorem reachable_good {s : Script α} (h : Reachable s) : GoodState s := by
  induction h with
  | init =>
    exact ⟨fun _ => rfl,
      by show ((([] : List α).length : Nat) : Int) ≤ 0; simp,
      by show (0 : Int) ≤ 2147483647; decide⟩
  | load l =>
    exact ⟨fun _ => rfl,
      by show ((([] : List α).length : Nat) : Int) ≤ 0; simp,
      by show (0 : Int) ≤ 2147483647; decide⟩
  | normalize hr ih => exact good_defined ih
  | canAnim hr ih =>
    rw [canAnimate_snd]
    exact good_defined ih
  | showCur hr ih =>
    rw [showCurrentFrameInScene_fst]
    exact good_defined ih
  | advIter hr h2 hn ht ih => exact good_advanceIter ih h2 hn ht
  | regIter hr hb ht ih => exact good_regressIter ih hb ht
  | advCur hr hn ih => exact good_advanceCurrentFrame ih hn
  | regCur hr ih => exact good_regressCurrentFrame ih
  | toBeginning hr ih => exact good_goToBeginning _
  | del hr ih => exact good_deleteCurrentFrame ih
  | create f hr hn ih => exact good_createNew f ih hn
  | replaceCur f hr hn ih => exact good_replaceCur f ih hn

/-- C1: evaluation of `canAnimate` on a store holding a single frame with the
cursor on it (ordinal 0).  The claim says `canAnimate()` is true iff the
sequence holds at least 3 frames and `currFrameNum <= count() - 3`; here
`count() = 1`, yet the source returns true, because `frames.size() - 2`
wraps around in `size_t` arithmetic. -/
theorem canAnimate_true_on_singleton_store :
    getNumberOfKeyframes (⟨[], [0], 0⟩ : Script ℕ) = 1 ∧
    (canAnimate (⟨[], [0], 0⟩ : Script ℕ)).1 = true := by decide

/-- C3: the public operation `deleteCurrentFrame` does not preserve the
invariant that `currFrameNum` equals the cursor's 0-based distance from the
first element.  On the store `[A, B, C]` with the cursor on `B` (distance 1,
`currFrameNum` 1), the deletion moves the cursor to `A` (distance 0) while
leaving `currFrameNum = 1`, and the cursor is still valid afterwards. -/
theorem deleteCurrentFrame_breaks_ordinal_invariant :
    (⟨[0], [1, 2], 1⟩ : Script ℕ).currFrameNum =
      ((⟨[0], [1, 2], 1⟩ : Script ℕ).before.length : Int) ∧
    (defined (deleteCurrentFrame (⟨[0], [1, 2], 1⟩ : Script ℕ)).1).1 = true ∧
    (deleteCurrentFrame (⟨[0], [1, 2], 1⟩ : Script ℕ)).1.currFrameNum ≠
      ((deleteCurrentFrame (⟨[0], [1, 2], 1⟩ : Script ℕ)).1.before.length : Int) := by
  decide

/-- C4: evaluation of the `[A, B, C]`-with-cursor-on-`B` scenario, with
`A, B, C` rendered as `10, 20, 30`.  The deletion leaves the sequence
`[A, C]` with the cursor on `A` (the element that preceded the deleted one),
as claimed, but the ordinal `currFrameNum` stays 1, not 0 as the claim
states. -/
theorem deleteCurrentFrame_scenario_ABC :
    deleteCurrentFrame (⟨[10], [20, 30], 1⟩ : Script ℕ) =
      (⟨[], [10, 30], 1⟩, [some 10]) := by decide

/-- C5: deleting the only frame of a store leaves `count() = 0` and
`isDefined() = false` as claimed, but the display event recorded is `none`:
the source unconditionally executes `iter->showFrameInScene()` after the
erase, dereferencing the past-the-end iterator of the now-empty list, so an
element access does occur when the deletion empties the sequence. -/
theorem deleteCurrentFrame_singleton_derefs_past_end :
    deleteCurrentFrame (⟨[], [7], 0⟩ : Script ℕ) = (⟨[], [], 0⟩, [none]) ∧
    getNumberOfKeyframes (deleteCurrentFrame (⟨[], [7], 0⟩ : Script ℕ)).1 = 0 ∧
    (defined (deleteCurrentFrame (⟨[], [7], 0⟩ : Script ℕ)).1).1 = false := by
  decide

/-- C7: `createNewFrameFromSceneAfterCurrentFrame`.  On any defined state —
cursor on element `a`, elements `bef` before it (reversed) and `rest` after
it, any ordinal `n` — the captured frame is inserted immediately after `a`
(the frame list becomes `bef.reverse ++ a :: frame :: rest`, so the count
grows by one and every other element keeps its position), the cursor moves
onto the new frame, the ordinal becomes `n + 1`, and the new frame is
displayed.  On an empty store (any ordinal `n`), the captured frame becomes
the sole element with the cursor on it at ordinal 0, and the resulting
one-frame store is defined with `count() = 1`. -/
theorem createNewFrameFromScene_spec :
    (∀ (bef rest : List α) (a frame : α) (n : Int),
      createNewFrameFromSceneAfterCurrentFrame frame ⟨bef, a :: rest, n⟩ =
        (⟨a :: bef, frame :: rest, n + 1⟩, [some frame])) ∧
    (∀ (frame : α) (n : Int),
      createNewFrameFromSceneAfterCurrentFrame frame ⟨[], [], n⟩ =
        (⟨[], [frame], 0⟩, [some frame])) ∧
    (∀ frame : α, (defined (⟨[], [frame], 0⟩ : Script α)).1 = true ∧
      getNumberOfKeyframes (⟨[], [frame], 0⟩ : Script α) = 1) := by
  refine ⟨fun bef rest a frame n => ?_, fun frame n => ?_, fun frame => ?_⟩ <;>
    simp [createNewFrameFromSceneAfterCurrentFrame, defined,
      getNumberOfKeyframes, deref]

/-- C10: `loadScriptFromFile`.  A file that fails to open yields the empty
store of the default constructor, with `count() = 0` and `isDefined()`
false; a present file yields one deserialized frame per line, in file
order, with the cursor structurally at the first element and ordinal 0,
and the store is defined whenever the file had at least one line. -/
theorem loadScriptFromFile_spec :
    (∀ deserialize : String → α,
      loadScriptFromFile deserialize none = (emptyScript : Script α) ∧
      getNumberOfKeyframes (loadScriptFromFile deserialize none) = 0 ∧
      (defined (loadScriptFromFile deserialize none)).1 = false) ∧
    (∀ (deserialize : String → α) (lines : List String),
      loadScriptFromFile deserialize (some lines) =
        ⟨[], lines.map deserialize, 0⟩) ∧
    (∀ (deserialize : String → α) (l : String) (ls : List String),
      (defined (loadScriptFromFile deserialize (some (l :: ls)))).1 = true) := by
  refine ⟨fun d => ?_, fun d lines => ?_, fun d l ls => ?_⟩ <;>
    simp [loadScriptFromFile, emptyScript, mkScript, defined,
      getNumberOfKeyframes]

/-- C8: `interpolate` neither moves the cursor nor modifies the sequence.
Whenever the four context lookups are all in range (the call returns a
result rather than falling off the list), the final state is exactly the
initial one: same elements in the same order, cursor on the same element,
`currFrameNum` untouched. -/
theorem interpolate_preserves_state (s : Script α)
    (r : Script α × α × α × α × α) (h : interpolate s = some r) :
    r.1 = s := by
  obtain ⟨bef, aft, n⟩ := s
  rcases bef with _ | ⟨b, bs⟩
  · rw [show interpolate (⟨[], aft, n⟩ : Script α) = none from rfl] at h
    exact Option.noConfusion h
  rcases aft with _ | ⟨a, aft1⟩
  · rw [show interpolate (⟨b :: bs, [], n⟩ : Script α) = none from rfl] at h
    exact Option.noConfusion h
  rcases aft1 with _ | ⟨x, aft2⟩
  · rw [show interpolate (⟨b :: bs, [a], n⟩ : Script α) = none from rfl] at h
    exact Option.noConfusion h
  rcases aft2 with _ | ⟨y, r2⟩
  · rw [show interpolate (⟨b :: bs, [a, x], n⟩ : Script α) = none from rfl] at h
    exact Option.noConfusion h
  · rw [show interpolate (⟨b :: bs, a :: x :: y :: r2, n⟩ : Script α) =
        some (⟨b :: bs, a :: x :: y :: r2, n⟩, b, a, x, y) from rfl] at h
    obtain rfl := Option.some.inj h
    rfl

/-- C8 witness: a concrete run of `interpolate` on the store
`[0, 1, 2, 3]` with the cursor on `1`, returning the context quadruple
`(0, 1, 2, 3)` and the unchanged state. -/
theorem interpolate_preserves_state_witness :
    interpolate (⟨[0], [1, 2, 3], 1⟩ : Script ℕ) =
      some (⟨[0], [1, 2, 3], 1⟩, 0, 1, 2, 3) ∧
    ((⟨[0], [1, 2, 3], 1⟩ : Script ℕ), 0, 1, 2, 3).1 =
      (⟨[0], [1, 2, 3], 1⟩ : Script ℕ) :=
  ⟨by decide, interpolate_preserves_state _ _ (by decide)⟩

/-- C2 counterexample: on the store `[A, B, C]` with the cursor on the
first element (ordinal 0, in sync), `canAnimate()` is true, yet the very
first step of `interpolate` decrements `begin()`: the lookup of the
element before the cursor references no live element, so the claim that
`canAnimate()` gates all four context lookups is false as stated. -/
theorem canAnimate_does_not_guard_first_position :
    (canAnimate (⟨[], [0, 1, 2], 0⟩ : Script ℕ)).1 = true ∧
    interpolate (⟨[], [0, 1, 2], 0⟩ : Script ℕ) = none := by decide

/-- C2 amended: whenever `canAnimate()` is true, the cursor is not on the
first element, `currFrameNum` agrees with the cursor's 0-based position,
and the frame count fits in the `int` range (as any real store's does),
the four context lookups of `interpolate` — before the cursor, the cursor,
one after, two after — all reference live elements and the iterator never
moves before the first element or past the last one. -/
theorem interpolate_context_live_off_first (s : Script α)
    (h1 : (canAnimate s).1 = true) (h2 : s.before ≠ [])
    (h3 : s.currFrameNum = (s.before.length : Int))
    (h4 : getNumberOfKeyframes s < 2147483648) :
    (interpolate s).isSome := by
  obtain ⟨bef, aft, n⟩ := s
  rcases bef with _ | ⟨b, bs⟩
  · exact absurd rfl h2
  rcases aft with _ | ⟨a, aft1⟩
  · rw [canAnimate_atEnd] at h1
    exact absurd h1 (by simp)
  have hguard : toUnsigned n <
      (getNumberOfKeyframes (⟨b :: bs, a :: aft1, n⟩ : Script α) + WORD - 2) %
        WORD := by
    rw [canAnimate_cons_fst] at h1
    exact of_decide_eq_true h1
  have h3a : n = ((bs.length + 1 : Nat) : Int) := by simpa using h3
  have h4a : bs.length + 1 + (aft1.length + 1) < 2147483648 := by
    simpa [getNumberOfKeyframes] using h4
  have hlen : 2 ≤ aft1.length := by
    unfold toUnsigned WORD getNumberOfKeyframes at hguard
    simp only [List.length_cons] at hguard
    omega
  rcases aft1 with _ | ⟨x, aft2⟩
  · exact absurd hlen (by simp)
  rcases aft2 with _ | ⟨y, r2⟩
  · exact absurd hlen (by simp)
  rw [show interpolate (⟨b :: bs, a :: x :: y :: r2, n⟩ : Script α) =
      some (⟨b :: bs, a :: x :: y :: r2, n⟩, b, a, x, y) from rfl]
  rfl

/-- C2 amended witness: the store `[0, 1, 2, 3]` with the cursor on `1`
(ordinal 1) satisfies every hypothesis, and the context lookups succeed. -/
theorem interpolate_context_live_off_first_witness :
    (canAnimate (⟨[0], [1, 2, 3], 1⟩ : Script ℕ)).1 = true ∧
    (⟨[0], [1, 2, 3], 1⟩ : Script ℕ).before ≠ [] ∧
    (interpolate (⟨[0], [1, 2, 3], 1⟩ : Script ℕ)).isSome :=
  ⟨by decide, by decide,
    interpolate_context_live_off_first _ (by decide) (by decide) (by decide)
      (by decide)⟩

/-- C9 counterexample: a store `[1, 2, 3]` with the cursor on `2` but a
desynchronized ordinal `currFrameNum = 2` (such states are reachable,
since `deleteCurrentFrame` moves the cursor back without decrementing the
counter).  The cursor is defined and not on the last element, yet the
advance is blocked by its counter-based guard while the regress does move,
so the advance/regress pair changes the cursor position. -/
theorem advance_regress_moves_when_desynced :
    (defined (⟨[1], [2, 3], 2⟩ : Script ℕ)).1 = true ∧
    2 ≤ (⟨[1], [2, 3], 2⟩ : Script ℕ).after.length ∧
    (regressCurrentFrame
        (advanceCurrentFrame (⟨[1], [2, 3], 2⟩ : Script ℕ)).1).1 ≠
      (⟨[1], [2, 3], 2⟩ : Script ℕ) := by decide

/-- C9 amended: whenever the cursor is defined, not on the last element,
`currFrameNum` agrees with the cursor's 0-based position (so the advance
is really not blocked), and the frame count fits in the `int` range,
`advanceCurrentFrame()` followed by `regressCurrentFrame()` restores the
whole state: same cursor element, same ordinal, same sequence. -/
theorem advance_regress_restores_state (s : Script α)
    (h1 : (defined s).1 = true) (h2 : 2 ≤ s.after.length)
    (h3 : s.currFrameNum = (s.before.length : Int))
    (h4 : getNumberOfKeyframes s < 2147483648) :
    (regressCurrentFrame (advanceCurrentFrame s).1).1 = s := by
  obtain ⟨bef, aft, n⟩ := s
  rcases aft with _ | ⟨a, aft1⟩
  · exact absurd h2 (by simp)
  rcases aft1 with _ | ⟨x, aft2⟩
  · exact absurd h2 (by simp)
  have h3a : n = ((bef.length : Nat) : Int) := by simpa using h3
  have h4a : bef.length + (aft2.length + 1 + 1) < 2147483648 := by
    simpa [getNumberOfKeyframes] using h4
  rw [advanceCurrentFrame_of_guard bef a (x :: aft2) n (by
    unfold toUnsigned WORD getNumberOfKeyframes
    simp only [List.length_cons]
    omega)]
  rw [show ((⟨a :: bef, x :: aft2, n + 1⟩, [(x :: aft2).head?]) :
      Script α × List (Option α)).1 = ⟨a :: bef, x :: aft2, n + 1⟩ from rfl]
  rw [regressCurrentFrame_cons]
  simp

/-- C6: in every state reachable through the class interface (both
constructors and the public operations, with the documented preconditions
of the raw iterator moves respected), `defined()` returns false exactly
when the store holds no frames; and whenever the sequence is empty, the
call resets the cursor to the canonical undefined state — structural
position at `begin()`, `currFrameNum` 0 — which is the state `Script()`
builds. -/
theorem isDefined_false_iff_empty {s : Script α} (h : Reachable s) :
    (((defined s).1 = false) ↔ getNumberOfKeyframes s = 0) ∧
    (getNumberOfKeyframes s = 0 → (defined s).2 = emptyScript) := by
  have hg := reachable_good h
  obtain ⟨bef, aft, n⟩ := s
  obtain ⟨g1, g2, g3⟩ := hg
  refine ⟨⟨?_, ?_⟩, ?_⟩
  · intro hf
    rcases aft with _ | ⟨a, rest⟩
    · have hb : bef = [] := g1 rfl
      subst hb
      rfl
    · rw [defined_cons_fst] at hf
      exact Bool.noConfusion hf
  · intro h0
    unfold defined
    rw [if_pos h0]
  · intro h0
    unfold defined
    rw [if_pos h0]
    rfl

/-- C6 witness: the two-frame store built by the list constructor is
reachable, is defined, and has a nonzero count. -/
theorem isDefined_false_iff_empty_witness :
    Reachable (mkScript ([1, 2] : List ℕ)) ∧
    ((((defined (mkScript ([1, 2] : List ℕ))).1 = false) ↔
        getNumberOfKeyframes (mkScript ([1, 2] : List ℕ)) = 0) ∧
      (getNumberOfKeyframes (mkScript ([1, 2] : List ℕ)) = 0 →
        (defined (mkScript ([1, 2] : List ℕ))).2 = emptyScript)) :=
  ⟨Reachable.load _, isDefined_false_iff_empty (Reachable.load _)⟩

/-- C9 amended witness: the store `[1, 2, 3]` with the cursor on `2` and
ordinal 1 (in sync) satisfies the hypotheses, and the advance/regress pair
restores the state. -/
theorem advance_regress_restores_state_witness :
    (defined (⟨[1], [2, 3], 1⟩ : Script ℕ)).1 = true ∧
    (regressCurrentFrame
        (advanceCurrentFrame (⟨[1], [2, 3], 1⟩ : Script ℕ)).1).1 =
      (⟨[1], [2, 3], 1⟩ : Script ℕ) :=
  ⟨by decide,
    advance_regress_restores_state _ (by decide) (by decide) (by decide)
      (by decide)⟩

end Asst6
